import Mathlib

/-
Verification development for the aeron sender-side transport engine sources:
  aeron-client/src/main/cpp_wrapper/concurrent/logbuffer/FrameDescriptor.h
  aeron-client/src/main/cpp_wrapper/ChannelUriStringBuilder.h
  aeron-driver/src/main/c/aeron_network_publication.h
Shallow embedding: machine integers are modelled as Nat/Int with explicit
wrap-around where the code can overflow, byte buffers as functions Nat → Nat
(byte values), C++ strings as List Char, and throwing member functions as
Except-valued functions returning the updated object on success.
-/

set_option maxHeartbeats 1000000

abbrev Str := List Char

namespace FrameDescriptor

/-- Alignment constant from FrameDescriptor.h: FRAME_ALIGNMENT = 32. -/
def FRAME_ALIGNMENT : Nat := 32

/-- Modelled from the spec: DataFrameHeader.h is not in the sources; per the
frame-layout diagram in FrameDescriptor.h the 16-bit Type field sits at byte
offset 6 of the header, so DataFrameHeader::TYPE_FIELD_OFFSET = 6. -/
def TYPE_FIELD_OFFSET : Nat := 6

/-- Byte-addressable buffer model for aeron::concurrent::AtomicBuffer: a map
from byte index to byte value (each value reduced mod 256 on write). -/
abbrev AtomicBuffer := Nat → Nat

/-- AtomicBuffer::putUInt16: store a 16-bit value little-endian at index i. -/
def putUInt16 (b : AtomicBuffer) (i : Nat) (v : Nat) : AtomicBuffer :=
  fun j => if j = i then v % 256 else if j = i + 1 then v / 256 % 256 else b j

/-- AtomicBuffer::getUInt16: read a 16-bit little-endian value at index i. -/
def getUInt16 (b : AtomicBuffer) (i : Nat) : Nat :=
  b i % 256 + 256 * (b (i + 1) % 256)

/-- FrameDescriptor::typeOffset: frameOffset + DataFrameHeader::TYPE_FIELD_OFFSET. -/
def typeOffset (frameOffset : Nat) : Nat :=
  frameOffset + TYPE_FIELD_OFFSET

/-- FrameDescriptor::frameType writer overload:
logBuffer.putUInt16(typeOffset(frameOffset), type). -/
def frameTypePut (logBuffer : AtomicBuffer) (frameOffset : Nat) (type : Nat) : AtomicBuffer :=
  putUInt16 logBuffer (typeOffset frameOffset) (type % 65536)

/-- FrameDescriptor::frameType reader overload, exactly as in the source:
logBuffer.getUInt16(frameOffset) — note it reads at frameOffset itself, not at
typeOffset(frameOffset). -/
def frameTypeGet (logBuffer : AtomicBuffer) (frameOffset : Nat) : Nat :=
  getUInt16 logBuffer frameOffset

/-- An all-zero log buffer. -/
def zeroBuffer : AtomicBuffer := fun _ => 0

end FrameDescriptor

/-- Model of the C++ class ChannelUriStringBuilder: each std::unique_ptr member
is an Option (null = none); Value wraps std::int64_t, modelled as Int; string
members are modelled as List Char. Field names follow the C++ members (the
m_prefix member is rendered m_prefixStr). -/
structure ChannelUriStringBuilder where
  m_prefixStr : Option Str := none
  m_media : Option Str := none
  m_endpoint : Option Str := none
  m_networkInterface : Option Str := none
  m_controlEndpoint : Option Str := none
  m_controlMode : Option Str := none
  m_tags : Option Str := none
  m_alias : Option Str := none
  m_cc : Option Str := none
  m_fc : Option Str := none
  m_reliable : Option Int := none
  m_ttl : Option Int := none
  m_mtu : Option Int := none
  m_termLength : Option Int := none
  m_initialTermId : Option Int := none
  m_termId : Option Int := none
  m_termOffset : Option Int := none
  m_sessionId : Option Int := none
  m_gtag : Option Int := none
  m_linger : Option Int := none
  m_sparse : Option Int := none
  m_eos : Option Int := none
  m_tether : Option Int := none
  m_group : Option Int := none
  m_rejoin : Option Int := none
  m_ssc : Option Int := none
  m_socketSndbufLength : Option Int := none
  m_socketRcvbufLength : Option Int := none
  m_receiverWindowLength : Option Int := none
  m_responseCorrelationId : Option Int := none
  m_nakDelay : Option Int := none
  m_untetheredWindowLimitTimeout : Option Int := none
  m_untetheredRestingTimeout : Option Int := none
  m_maxResend : Option Int := none
  m_mediaReceiveTimestampOffset : Option Str := none
  m_channelReceiveTimestampOffset : Option Str := none
  m_channelSendTimestampOffset : Option Str := none
  m_isSessionIdTagged : Bool := false
deriving DecidableEq

/-- A builder with every parameter unset, as produced by clear(). -/
def emptyChannelUriStringBuilder : ChannelUriStringBuilder := {}

namespace ChannelUriStringBuilder

/-- Modelled from the spec: LogBufferDescriptor.h is not in the sources; the
maximum term length ("0-1g" in the builder's own error text) is 1 GiB. -/
def TERM_MAX_LENGTH : Nat := 1073741824

/-- Modelled from the spec: LogBufferDescriptor.h is not in the sources; the
minimum term length is 64 KiB. -/
def TERM_MIN_LENGTH : Nat := 65536

/-- Modelled from the spec: LogBufferDescriptor::checkTermLength is not in the
sources; a term length is accepted when it lies between the minimum and maximum
term lengths and is a power of two. Rendered as the acceptance predicate of the
throwing check. -/
def checkTermLength (termLength : Int) : Bool :=
  decide ((TERM_MIN_LENGTH : Int) ≤ termLength) &&
    decide (termLength ≤ (TERM_MAX_LENGTH : Int)) &&
    (termLength.toNat &&& (termLength.toNat - 1) == 0)

/-- BitUtil::numberOfTrailingZeroes, on the Nat image of the (power-of-two)
term length. -/
def numberOfTrailingZeroes (n : Nat) : Nat :=
  if h : n % 2 = 1 ∨ n = 0 then 0 else numberOfTrailingZeroes (n / 2) + 1
decreasing_by
  exact Nat.div_lt_self (by omega) (by omega)

/-- ChannelUriStringBuilder::mtu(std::uint32_t): throws unless the value is in
32..65504 and a multiple of FRAME_ALIGNMENT; on success stores the value. -/
def mtu (b : ChannelUriStringBuilder) (v : Nat) : Except Str ChannelUriStringBuilder :=
  if v < 32 ∨ 65504 < v then
    .error ("MTU not in range 32-65504".data)
  else if v &&& (FrameDescriptor.FRAME_ALIGNMENT - 1) ≠ 0 then
    .error ("MTU not a multiple of FRAME_ALIGNMENT".data)
  else
    .ok { b with m_mtu := some (v : Int) }

/-- ChannelUriStringBuilder::termOffset(std::uint32_t): throws unless the value
is at most TERM_MAX_LENGTH and a multiple of FRAME_ALIGNMENT. -/
def termOffset (b : ChannelUriStringBuilder) (v : Nat) : Except Str ChannelUriStringBuilder :=
  if TERM_MAX_LENGTH < v then
    .error ("term offset not in range 0-1g".data)
  else if v &&& (FrameDescriptor.FRAME_ALIGNMENT - 1) ≠ 0 then
    .error ("term offset not multiple of FRAME_ALIGNMENT".data)
  else
    .ok { b with m_termOffset := some (v : Int) }

/-- ChannelUriStringBuilder::linger(std::int64_t): throws on a negative value. -/
def linger (b : ChannelUriStringBuilder) (v : Int) : Except Str ChannelUriStringBuilder :=
  if v < 0 then
    .error ("linger value cannot be negative".data)
  else
    .ok { b with m_linger := some v }

/-- True exactly on the error (throwing) outcome of a setter. -/
def isErrorResult (r : Except Str ChannelUriStringBuilder) : Bool :=
  match r with
  | .error _ => true
  | .ok _ => false

/-- ChannelUriStringBuilder::prefix(std::nullptr_t): m_prefix.reset(nullptr). -/
def prefixNull (b : ChannelUriStringBuilder) : ChannelUriStringBuilder :=
  { b with m_prefixStr := none }

/-- ChannelUriStringBuilder::reliable(std::nullptr_t): m_reliable.reset(nullptr). -/
def reliableNull (b : ChannelUriStringBuilder) : ChannelUriStringBuilder :=
  { b with m_reliable := none }

/-- ChannelUriStringBuilder::rejoin(std::nullptr_t), exactly as in the source:
its body is m_reliable.reset(nullptr) — it resets m_reliable, not m_rejoin. -/
def rejoinNull (b : ChannelUriStringBuilder) : ChannelUriStringBuilder :=
  { b with m_reliable := none }

/-- ChannelUriStringBuilder::spiesSimulateConnection(std::nullptr_t). -/
def spiesSimulateConnectionNull (b : ChannelUriStringBuilder) : ChannelUriStringBuilder :=
  { b with m_ssc := none }

/-- ChannelUriStringBuilder::socketSndbufLength(std::nullptr_t). -/
def socketSndbufLengthNull (b : ChannelUriStringBuilder) : ChannelUriStringBuilder :=
  { b with m_socketSndbufLength := none }

/-- ChannelUriStringBuilder::socketRcvbufLength(std::nullptr_t). -/
def socketRcvbufLengthNull (b : ChannelUriStringBuilder) : ChannelUriStringBuilder :=
  { b with m_socketRcvbufLength := none }

/-- ChannelUriStringBuilder::receiverWindowLength(std::nullptr_t). -/
def receiverWindowLengthNull (b : ChannelUriStringBuilder) : ChannelUriStringBuilder :=
  { b with m_receiverWindowLength := none }

/-- ChannelUriStringBuilder::initialPosition(position, initialTermId,
termLength): rejects a negative or unaligned position and an invalid term
length, then stores termLength, initialTermId,
termId = (position >> numberOfTrailingZeroes(termLength)) + initialTermId and
termOffset = position & (termLength - 1). The C++ int64 shift and mask act on
the (already checked) non-negative position, so they are taken on its Nat image. -/
def initialPosition (b : ChannelUriStringBuilder) (position : Int)
    (initialTermId : Int) (termLength : Int) : Except Str ChannelUriStringBuilder :=
  if position < 0 ∨ position.toNat &&& (FrameDescriptor.FRAME_ALIGNMENT - 1) ≠ 0 then
    .error ("position not multiple of FRAME_ALIGNMENT".data)
  else if ¬ checkTermLength termLength then
    .error ("invalid term length".data)
  else
    let bitsToShift := numberOfTrailingZeroes termLength.toNat
    .ok { b with
          m_termLength := some termLength,
          m_initialTermId := some initialTermId,
          m_termId := some (((position.toNat >>> bitsToShift : Nat) : Int) + initialTermId),
          m_termOffset := some ((position.toNat &&& (termLength.toNat - 1) : Nat) : Int) }

end ChannelUriStringBuilder

/-- Decimal digits of a natural number, as produced by std::to_string. -/
def natChars (n : Nat) : Str :=
  if h : n < 10 then [Nat.digitChar n]
  else natChars (n / 10) ++ [Nat.digitChar (n % 10)]
decreasing_by
  exact Nat.div_lt_self (by omega) (by omega)

/-- std::to_string on a 64-bit signed value, modelled on Int. -/
def intChars (i : Int) : Str :=
  if i < 0 then '-' :: natChars (-i).toNat else natChars i.toNat

/-- Rendering of a stored boolean Value as in build(): value == 1 ? "true" : "false". -/
def boolChars (v : Int) : Str :=
  if v = 1 then "true".data else "false".data

/-- Modelled from the spec: ChannelUri.h is not in the sources; AERON_SCHEME is
the "aeron" scheme of every channel URI. -/
def AERON_SCHEME : Str := "aeron".data

/-- Modelled from the spec: ChannelUri.h is not in the sources; TAG_PREFIX is
the "tag:" marker put before a tagged session id. -/
def TAG_PREFIX_STR : Str := "tag:".data

/-- Modelled from the spec: the parameter-name constants of ChannelUri.h are
not in the sources; their exact spelling does not matter for the claims, only
that each is a fixed non-empty key. -/
def TAGS_PARAM_NAME : Str := "tags".data

def ENDPOINT_PARAM_NAME : Str := "endpoint".data

def INTERFACE_PARAM_NAME : Str := "interface".data

def MDC_CONTROL_PARAM_NAME : Str := "control".data

def MDC_CONTROL_MODE_PARAM_NAME : Str := "control-mode".data

def MTU_LENGTH_PARAM_NAME : Str := "mtu".data

def TERM_LENGTH_PARAM_NAME : Str := "term-length".data

def INITIAL_TERM_ID_PARAM_NAME : Str := "init-term-id".data

def TERM_ID_PARAM_NAME : Str := "term-id".data

def TERM_OFFSET_PARAM_NAME : Str := "term-offset".data

def SESSION_ID_PARAM_NAME : Str := "session-id".data

def TTL_PARAM_NAME : Str := "ttl".data

def RELIABLE_STREAM_PARAM_NAME : Str := "reliable".data

def LINGER_PARAM_NAME : Str := "linger".data

def ALIAS_PARAM_NAME : Str := "alias".data

def CONGESTION_CONTROL_PARAM_NAME : Str := "cc".data

def FLOW_CONTROL_PARAM_NAME : Str := "fc".data

def GROUP_TAG_PARAM_NAME : Str := "gtag".data

def SPARSE_PARAM_NAME : Str := "sparse".data

def EOS_PARAM_NAME : Str := "eos".data

def TETHER_PARAM_NAME : Str := "tether".data

def GROUP_PARAM_NAME : Str := "group".data

def REJOIN_PARAM_NAME : Str := "rejoin".data

def SPIES_SIMULATE_CONNECTION_PARAM_NAME : Str := "ssc".data

def SOCKET_SNDBUF_PARAM_NAME : Str := "so-sndbuf".data

def SOCKET_RCVBUF_PARAM_NAME : Str := "so-rcvbuf".data

def RECEIVER_WINDOW_LENGTH_PARAM_NAME : Str := "rcv-wnd".data

def MEDIA_RCV_TIMESTAMP_OFFSET_PARAM_NAME : Str := "media-rcv-ts-offset".data

def CHANNEL_RCV_TIMESTAMP_OFFSET_PARAM_NAME : Str := "channel-rcv-ts-offset".data

def CHANNEL_SND_TIMESTAMP_OFFSET_PARAM_NAME : Str := "channel-snd-ts-offset".data

def RESPONSE_CORRELATION_ID_PARAM_NAME : Str := "response-correlation-id".data

def NAK_DELAY_PARAM_NAME : Str := "nak-delay".data

def UNTETHERED_WINDOW_LIMIT_TIMEOUT_PARAM_NAME : Str := "untethered-window-limit-timeout".data

def UNTETHERED_RESTING_TIMEOUT_PARAM_NAME : Str := "untethered-resting-timeout".data

def MAX_RESEND_PARAM_NAME : Str := "max-resend".data

namespace ChannelUriStringBuilder

/-- The private static append(sb, name, unique_ptr<Value>) helper: emits
"name=value|" when the parameter is set, nothing otherwise. -/
def appendValue (name : Str) (v : Option Int) : Str :=
  match v with
  | some x => name ++ '=' :: intChars x ++ ['|']
  | none => []

/-- The private static append(sb, name, unique_ptr<string>) helper. -/
def appendString (name : Str) (v : Option Str) : Str :=
  match v with
  | some s => name ++ '=' :: s ++ ['|']
  | none => []

/-- The inline boolean emission in build(): if the Value is set, emits
"name=true|" or "name=false|" according to value == 1. -/
def appendBoolValue (name : Str) (v : Option Int) : Str :=
  match v with
  | some x => name ++ '=' :: boolChars x ++ ['|']
  | none => []

/-- The private static prefixTag helper: "tag:<value>" when tagged, the bare
decimal value otherwise. -/
def prefixTag (isTagged : Bool) (v : Int) : Str :=
  if isTagged then TAG_PREFIX_STR ++ intChars v else intChars v

/-- The inline session-id emission in build(): "session-id=<prefixTag(...)>|"
when the parameter is set. -/
def appendSessionId (isTagged : Bool) (v : Option Int) : Str :=
  match v with
  | some x => SESSION_ID_PARAM_NAME ++ '=' :: prefixTag isTagged x ++ ['|']
  | none => []

/-- The leading part of build() before the scheme: "<prefix>:" when a non-empty
prefix is set, empty otherwise. -/
def prefixPart (b : ChannelUriStringBuilder) : Str :=
  match b.m_prefixStr with
  | some p => if p ≠ [] then p ++ [':'] else []
  | none => []

/-- The parameter section of build(): every conditional emission after the
"aeron:<media>?" head, in the exact source order. -/
def buildParams (b : ChannelUriStringBuilder) : Str :=
  appendString TAGS_PARAM_NAME b.m_tags ++
  appendString ENDPOINT_PARAM_NAME b.m_endpoint ++
  appendString INTERFACE_PARAM_NAME b.m_networkInterface ++
  appendString MDC_CONTROL_PARAM_NAME b.m_controlEndpoint ++
  appendString MDC_CONTROL_MODE_PARAM_NAME b.m_controlMode ++
  appendValue MTU_LENGTH_PARAM_NAME b.m_mtu ++
  appendValue TERM_LENGTH_PARAM_NAME b.m_termLength ++
  appendValue INITIAL_TERM_ID_PARAM_NAME b.m_initialTermId ++
  appendValue TERM_ID_PARAM_NAME b.m_termId ++
  appendValue TERM_OFFSET_PARAM_NAME b.m_termOffset ++
  appendSessionId b.m_isSessionIdTagged b.m_sessionId ++
  appendValue TTL_PARAM_NAME b.m_ttl ++
  appendBoolValue RELIABLE_STREAM_PARAM_NAME b.m_reliable ++
  appendValue LINGER_PARAM_NAME b.m_linger ++
  appendString ALIAS_PARAM_NAME b.m_alias ++
  appendString CONGESTION_CONTROL_PARAM_NAME b.m_cc ++
  appendString FLOW_CONTROL_PARAM_NAME b.m_fc ++
  appendValue GROUP_TAG_PARAM_NAME b.m_gtag ++
  appendBoolValue SPARSE_PARAM_NAME b.m_sparse ++
  appendBoolValue EOS_PARAM_NAME b.m_eos ++
  appendBoolValue TETHER_PARAM_NAME b.m_tether ++
  appendBoolValue GROUP_PARAM_NAME b.m_group ++
  appendBoolValue REJOIN_PARAM_NAME b.m_rejoin ++
  appendBoolValue SPIES_SIMULATE_CONNECTION_PARAM_NAME b.m_ssc ++
  appendValue SOCKET_SNDBUF_PARAM_NAME b.m_socketSndbufLength ++
  appendValue SOCKET_RCVBUF_PARAM_NAME b.m_socketRcvbufLength ++
  appendValue RECEIVER_WINDOW_LENGTH_PARAM_NAME b.m_receiverWindowLength ++
  appendString MEDIA_RCV_TIMESTAMP_OFFSET_PARAM_NAME b.m_mediaReceiveTimestampOffset ++
  appendString CHANNEL_RCV_TIMESTAMP_OFFSET_PARAM_NAME b.m_channelReceiveTimestampOffset ++
  appendString CHANNEL_SND_TIMESTAMP_OFFSET_PARAM_NAME b.m_channelSendTimestampOffset ++
  appendValue RESPONSE_CORRELATION_ID_PARAM_NAME b.m_responseCorrelationId ++
  appendValue NAK_DELAY_PARAM_NAME b.m_nakDelay ++
  appendValue UNTETHERED_WINDOW_LIMIT_TIMEOUT_PARAM_NAME b.m_untetheredWindowLimitTimeout ++
  appendValue UNTETHERED_RESTING_TIMEOUT_PARAM_NAME b.m_untetheredRestingTimeout ++
  appendValue MAX_RESEND_PARAM_NAME b.m_maxResend

/-- The string held by the ostringstream at the end of build(), before the
trailing-character removal: the optional prefix, the "aeron:<media>?" head and
every set parameter. -/
def buildRaw (b : ChannelUriStringBuilder) (m : Str) : Str :=
  (prefixPart b ++ AERON_SCHEME ++ ':' :: m) ++ ['?'] ++ buildParams b

/-- The final step of build(): pop the last character when it is the parameter
separator or the query character. -/
def buildTrim (s : Str) : Str :=
  if s.getLast? = some '|' ∨ s.getLast? = some '?' then s.dropLast else s

/-- ChannelUriStringBuilder::build(): emits the optional prefix, the
"aeron:<media>?" head and every set parameter, then removes a trailing '|' or
'?'. The C++ code dereferences m_media unconditionally; the model returns none
when no media is set. -/
def build (b : ChannelUriStringBuilder) : Option Str :=
  match b.m_media with
  | none => none
  | some m => some (buildTrim (buildRaw b m))

end ChannelUriStringBuilder

/-- The aeron_network_publication_state_t lifecycle enum. -/
inductive NetworkPublicationState where
  | ACTIVE
  | DRAINING
  | LINGER
  | DONE
deriving DecidableEq

/-- Modelled from the spec: the tether-state enum of aeron_driver_common.h is
not in the sources; a tetherable position is ACTIVE, LINGER or RESTING. -/
inductive TetherState where
  | ACTIVE
  | LINGER
  | RESTING
deriving DecidableEq

/-- Modelled from the spec: aeron_tetherable_position_t of aeron_driver_common.h
is not in the sources; a tetherable position is a consumption position counter
together with its tether state. -/
structure TetherablePosition where
  value : Int
  state : TetherState
deriving DecidableEq

/-- Model of aeron_network_publication_t, restricted to the fields read or
written by the embedded operations: the conductor fields state, clean_position
and subscribable, the snd_pos and snd_lmt position counters, the connection
flags, the spies_simulate_connection configuration and the log metadata
is_connected word. producer_pos stands for the producer position; per the spec
it is derived from the log-buffer raw tail, whose decomposition lives in
headers outside the sources, so it is carried as the abstract position value. -/
structure aeron_network_publication_t where
  state : NetworkPublicationState
  clean_position : Int
  subscribable : List TetherablePosition
  snd_pos : Int
  snd_lmt : Int
  producer_pos : Int
  spies_simulate_connection : Bool
  has_receivers : Bool
  has_spies : Bool
  is_connected : Bool
  log_is_connected : Int
deriving DecidableEq

/-- Modelled from the spec: aeron_driver_subscribable_working_position_count is
not in the sources; per the spec, resting positions are excluded from liveness
aggregation, so the working positions are those whose tether state is not
RESTING. -/
def aeron_driver_subscribable_working_position_count
    (subscribable : List TetherablePosition) : Nat :=
  subscribable.countP (fun t => decide (t.state ≠ TetherState.RESTING))

/-- Modelled from the spec: aeron_driver_subscribable_has_working_positions is
not in the sources; true when at least one working position remains. -/
def aeron_driver_subscribable_has_working_positions
    (subscribable : List TetherablePosition) : Bool :=
  aeron_driver_subscribable_working_position_count subscribable != 0

/-- aeron_network_publication_producer_position: the position derived from the
log buffer raw tail (the raw-tail decomposition helpers are in headers outside
the sources, so the derived value is read off the abstract producer_pos field). -/
def aeron_network_publication_producer_position
    (publication : aeron_network_publication_t) : Int :=
  publication.producer_pos

/-- aeron_network_publication_add_subscriber_hook: sets has_spies, and when
spies_simulate_connection is configured also sets the log metadata is_connected
word and the is_connected flag. -/
def aeron_network_publication_add_subscriber_hook
    (publication : aeron_network_publication_t) : aeron_network_publication_t :=
  let p1 := { publication with has_spies := true }
  if p1.spies_simulate_connection then
    { p1 with log_is_connected := 1, is_connected := true }
  else
    p1

/-- aeron_network_publication_remove_subscriber_hook: clears has_spies exactly
when the working position count of the subscribable (still containing the
position being removed) is 1. -/
def aeron_network_publication_remove_subscriber_hook
    (publication : aeron_network_publication_t) : aeron_network_publication_t :=
  if aeron_driver_subscribable_working_position_count publication.subscribable = 1 then
    { publication with has_spies := false }
  else
    publication

/-- Modelled from the spec: the conductor-side removal of a subscriber position
(aeron_driver_subscribable_remove_position) is not in the sources; it invokes
the remove-subscriber hook while the entry is still present in the subscribable
and then removes the entry at the given index. -/
def aeron_driver_subscribable_remove_position
    (publication : aeron_network_publication_t) (i : Nat) : aeron_network_publication_t :=
  let p1 := aeron_network_publication_remove_subscriber_hook publication
  { p1 with subscribable := p1.subscribable.eraseIdx i }

/-- aeron_network_publication_max_spy_position: starts from snd_pos and folds
over the subscribable, taking each non-RESTING position counter when it exceeds
the running maximum. -/
def aeron_network_publication_max_spy_position
    (publication : aeron_network_publication_t) (snd_pos : Int) : Int :=
  publication.subscribable.foldl
    (fun position tetherable_position =>
      if tetherable_position.state ≠ TetherState.RESTING then
        if tetherable_position.value > position then tetherable_position.value else position
      else
        position)
    snd_pos

/-- aeron_network_publication_is_accepting_subscriptions: true in ACTIVE, and
in DRAINING while working positions remain and the producer position exceeds
the snd_pos counter. -/
def aeron_network_publication_is_accepting_subscriptions
    (publication : aeron_network_publication_t) : Bool :=
  decide (publication.state = NetworkPublicationState.ACTIVE) ||
    (decide (publication.state = NetworkPublicationState.DRAINING) &&
      aeron_driver_subscribable_has_working_positions publication.subscribable &&
      decide (aeron_network_publication_producer_position publication > publication.snd_pos))

/-- The clean-position target of housekeeping: the minimum of snd_pos and the
max spy position, never moving clean_position backwards. -/
def aeron_network_publication_clean_target (p : aeron_network_publication_t) : Int :=
  max p.clean_position
    (min p.snd_pos (aeron_network_publication_max_spy_position p p.snd_pos))

/-- Modelled from the spec: the bodies of send, NAK handling, status-message
handling, time-event housekeeping and buffer cleaning live in
aeron_network_publication.c, which is not in the sources. Each operation is
rendered as a transition on the publication positions with exactly the effect
the spec gives it: send advances snd_pos by a successfully written byte count
bounded by the window min(snd_lmt, producer_pos) - snd_pos; NAK handling
enqueues a retransmission and moves no position; status-message handling
applies the flow-control candidate limit monotonically; time-event housekeeping
and buffer cleaning advance clean_position up to the minimum of snd_pos and the
max spy position; the producer advances the producer position independently. -/
inductive aeron_network_publication_step :
    aeron_network_publication_t → aeron_network_publication_t → Prop where
  | send (p : aeron_network_publication_t) (n : Int) (h0 : 0 ≤ n)
      (hn : n ≤ max 0 (min p.snd_lmt p.producer_pos - p.snd_pos)) :
      aeron_network_publication_step p { p with snd_pos := p.snd_pos + n }
  | on_nak (p : aeron_network_publication_t) :
      aeron_network_publication_step p p
  | on_status_message (p : aeron_network_publication_t) (candidate : Int) :
      aeron_network_publication_step p { p with snd_lmt := max p.snd_lmt candidate }
  | clean_buffer (p : aeron_network_publication_t) :
      aeron_network_publication_step p
        { p with clean_position := aeron_network_publication_clean_target p }
  | on_time_event (p : aeron_network_publication_t) :
      aeron_network_publication_step p
        { p with clean_position := aeron_network_publication_clean_target p }
  | producer_advance (p : aeron_network_publication_t) (n : Int) (h0 : 0 ≤ n) :
      aeron_network_publication_step p { p with producer_pos := p.producer_pos + n }

/-- The position ordering of spec §3: clean_position ≤ snd_pos ≤ snd_lmt and
snd_pos ≤ producer position. -/
def aeron_network_publication_position_invariant (p : aeron_network_publication_t) : Prop :=
  p.clean_position ≤ p.snd_pos ∧ p.snd_pos ≤ p.snd_lmt ∧
    p.snd_pos ≤ aeron_network_publication_producer_position p

/-- The full chain claimed in spec §8: clean_position ≤ snd_pos ≤ snd_lmt ≤
producer position. -/
def aeron_network_publication_position_chain (p : aeron_network_publication_t) : Prop :=
  p.clean_position ≤ p.snd_pos ∧ p.snd_pos ≤ p.snd_lmt ∧
    p.snd_lmt ≤ aeron_network_publication_producer_position p

instance (p : aeron_network_publication_t) :
    Decidable (aeron_network_publication_position_invariant p) := by
  unfold aeron_network_publication_position_invariant
  infer_instance

instance (p : aeron_network_publication_t) :
    Decidable (aeron_network_publication_position_chain p) := by
  unfold aeron_network_publication_position_chain
  infer_instance

/-- A string that does not end with the parameter separator or the query
character. -/
def lastCharOk (s : Str) : Prop :=
  s.getLast? ≠ some '|' ∧ s.getLast? ≠ some '?'

instance (s : Str) : Decidable (lastCharOk s) := by
  unfold lastCharOk
  infer_instance

/-- An optional string parameter which, when set, does not end with the
parameter separator or the query character. -/
def optStrOk (v : Option Str) : Prop :=
  ∀ s, v = some s → lastCharOk s

/-- A parameter block of build(): either empty, or a non-empty core followed
by the separator, the core not ending with a separator or query character. -/
def goodBlock (l : Str) : Prop :=
  l = [] ∨ ∃ core, l = core ++ ['|'] ∧ core ≠ [] ∧ lastCharOk core

/-- An idle publication in ACTIVE state with no subscribers and all positions
at zero, used as a concrete start state. -/
def pub_c1x : aeron_network_publication_t :=
  ⟨NetworkPublicationState.ACTIVE, 0, [], 0, 0, 0, false, false, false, false, 0⟩

/-- An ACTIVE publication with no connected receivers and no spies. -/
def pub_c2x : aeron_network_publication_t :=
  ⟨NetworkPublicationState.ACTIVE, 0, [], 0, 0, 0, false, false, false, false, 0⟩

/-- A publication configured with spies_simulate_connection and zero receivers,
before any spy attaches. -/
def pub_c4w : aeron_network_publication_t :=
  ⟨NetworkPublicationState.ACTIVE, 0, [], 0, 0, 0, true, false, false, false, 0⟩

/-- A publication with two working (ACTIVE) tetherable positions. -/
def pub_c5w : aeron_network_publication_t :=
  ⟨NetworkPublicationState.ACTIVE, 0, [⟨3, TetherState.ACTIVE⟩, ⟨4, TetherState.ACTIVE⟩],
    0, 0, 0, false, false, true, false, 0⟩

/-- A publication with one RESTING and one ACTIVE tetherable position, so its
working position count is 1 while the RESTING entry is the one being removed. -/
def pub_c5x : aeron_network_publication_t :=
  ⟨NetworkPublicationState.ACTIVE, 0, [⟨5, TetherState.RESTING⟩, ⟨7, TetherState.ACTIVE⟩],
    0, 0, 0, false, false, true, false, 0⟩

/-- A builder holding a media and an alias whose value is the single character
'|'. -/
def bld_c9x : ChannelUriStringBuilder :=
  { m_media := some ("udp".data), m_alias := some ('|' :: []) }

/-- A builder holding only a media. -/
def bld_c9w : ChannelUriStringBuilder :=
  { m_media := some ("udp".data) }

/-- The select-larger step of the max-spy-position loop is the binary max. -/
theorem if_gt_eq_max (a v : Int) : (if v > a then v else a) = max a v := by
  rw [max_def]
  split <;> split <;> omega

/-- A left fold of max never goes below its start value. -/
theorem foldl_max_acc_le : ∀ (l : List Int) (acc : Int),
    acc ≤ l.foldl (fun a v => max a v) acc := by
  intro l
  induction l with
  | nil => intro acc; exact le_refl acc
  | cons hd tl ih =>
    intro acc
    exact le_trans (le_max_left acc hd) (ih (max acc hd))

/-- Erasing an element satisfying the predicate lowers the countP by one. -/
theorem countP_eraseIdx_add_one {α : Type} (P : α → Bool) :
    ∀ (l : List α) (i : Nat) (h : i < l.length), P (l.get ⟨i, h⟩) = true →
      (l.eraseIdx i).countP P + 1 = l.countP P := by
  intro l
  induction l with
  | nil => intro i h; simp at h
  | cons hd tl ih =>
    intro i h hp
    cases i with
    | zero =>
      simp only [List.eraseIdx, List.countP_cons]
      simp only [List.get] at hp
      simp [hp]
    | succ j =>
      simp only [List.eraseIdx, List.countP_cons]
      have hj : j < tl.length := by simpa using h
      have := ih j hj (by simpa using hp)
      omega

/-- Claim C8: the nullptr overload rejoin(nullptr) resets the reliable
parameter and leaves the rejoin parameter unchanged, while every other nullptr
overload (prefix, reliable, spiesSimulateConnection, socketSndbufLength,
socketRcvbufLength, receiverWindowLength) resets exactly its own parameter and
leaves every other parameter unchanged. -/
theorem spec_c8_null_setter_frame_effects :
    ∀ b : ChannelUriStringBuilder,
      ChannelUriStringBuilder.rejoinNull b = { b with m_reliable := none } ∧
      (ChannelUriStringBuilder.rejoinNull b).m_rejoin = b.m_rejoin ∧
      ChannelUriStringBuilder.reliableNull b = { b with m_reliable := none } ∧
      ChannelUriStringBuilder.prefixNull b = { b with m_prefixStr := none } ∧
      ChannelUriStringBuilder.spiesSimulateConnectionNull b = { b with m_ssc := none } ∧
      ChannelUriStringBuilder.socketSndbufLengthNull b = { b with m_socketSndbufLength := none } ∧
      ChannelUriStringBuilder.socketRcvbufLengthNull b = { b with m_socketRcvbufLength := none } ∧
      ChannelUriStringBuilder.receiverWindowLengthNull b = { b with m_receiverWindowLength := none } :=
  fun _ => ⟨rfl, rfl, rfl, rfl, rfl, rfl, rfl, rfl⟩

/-- Claim C4 (confirmed): with spies_simulate_connection configured and zero
receivers, the add-subscriber hook sets has_spies and makes the publication
connected in both the publication flag and the log metadata; a second
invocation changes nothing further, so only the first spy attaching has the
effect; without spies_simulate_connection the hook sets has_spies and leaves
both connected indicators untouched. -/
theorem spec_c4_add_subscriber_hook :
    ∀ p : aeron_network_publication_t,
      (p.spies_simulate_connection = true → p.has_receivers = false →
        aeron_network_publication_add_subscriber_hook p =
          { p with has_spies := true, is_connected := true, log_is_connected := 1 } ∧
        aeron_network_publication_add_subscriber_hook
            (aeron_network_publication_add_subscriber_hook p) =
          aeron_network_publication_add_subscriber_hook p) ∧
      (p.spies_simulate_connection = false →
        aeron_network_publication_add_subscriber_hook p = { p with has_spies := true } ∧
        (aeron_network_publication_add_subscriber_hook p).is_connected = p.is_connected ∧
        (aeron_network_publication_add_subscriber_hook p).log_is_connected =
          p.log_is_connected) := by
  intro p
  constructor
  · intro hssc _
    unfold aeron_network_publication_add_subscriber_hook
    simp [hssc]
  · intro hssc
    unfold aeron_network_publication_add_subscriber_hook
    simp [hssc]

/-- Witness for C4 at a concrete publication with spies_simulate_connection
set and zero receivers. -/
theorem spec_c4_witness :
    aeron_network_publication_add_subscriber_hook pub_c4w =
      { pub_c4w with has_spies := true, is_connected := true, log_is_connected := 1 } :=
  ((spec_c4_add_subscriber_hook pub_c4w).1 rfl rfl).1

/-- Counterexample to claim C2 as stated: an ACTIVE publication with no
connected receivers and no spies is nonetheless accepting subscriptions —
the function returns true for every ACTIVE publication. -/
theorem spec_c2_counterexample :
    pub_c2x.state = NetworkPublicationState.ACTIVE ∧
    pub_c2x.has_receivers = false ∧
    pub_c2x.has_spies = false ∧
    pub_c2x.subscribable = [] ∧
    aeron_network_publication_is_accepting_subscriptions pub_c2x = true := by
  decide

/-- Claim C2 (amended): a publication is accepting subscriptions exactly when
it is ACTIVE (regardless of receivers or spies), or it is DRAINING with
working consumer positions remaining and the producer position strictly above
the sender position; in particular it is never accepting subscriptions in
LINGER or DONE. -/
theorem spec_c2_accepting_subscriptions :
    ∀ p : aeron_network_publication_t,
      aeron_network_publication_is_accepting_subscriptions p = true ↔
        (p.state = NetworkPublicationState.ACTIVE ∨
          (p.state = NetworkPublicationState.DRAINING ∧
            aeron_driver_subscribable_has_working_positions p.subscribable = true ∧
            aeron_network_publication_producer_position p > p.snd_pos)) := by
  intro p
  unfold aeron_network_publication_is_accepting_subscriptions
  simp [Bool.or_eq_true, Bool.and_eq_true, decide_eq_true_eq, and_assoc]

/-- Claim C6: the max spy position is the maximum of snd_pos and the position
counters of the non-RESTING tetherable positions — computed as a fold of max
over exactly the non-RESTING counters — and it never lies below snd_pos, so
RESTING positions never influence it. -/
theorem spec_c6_max_spy_position :
    ∀ (p : aeron_network_publication_t) (snd_pos : Int),
      aeron_network_publication_max_spy_position p snd_pos =
        List.foldl (fun a v => max a v) snd_pos
          ((p.subscribable.filter
            (fun t => decide (t.state ≠ TetherState.RESTING))).map
              (fun t => t.value)) ∧
      snd_pos ≤ aeron_network_publication_max_spy_position p snd_pos := by
  intro p snd_pos
  have key : ∀ (l : List TetherablePosition) (acc : Int),
      l.foldl
        (fun position tetherable_position =>
          if tetherable_position.state ≠ TetherState.RESTING then
            if tetherable_position.value > position then tetherable_position.value else position
          else position) acc =
      List.foldl (fun a v => max a v) acc
        ((l.filter (fun t => decide (t.state ≠ TetherState.RESTING))).map
          (fun t => t.value)) := by
    intro l
    induction l with
    | nil => intro acc; rfl
    | cons hd tl ih =>
      intro acc
      by_cases hs : hd.state = TetherState.RESTING
      · have hfil : (hd :: tl).filter
            (fun t => decide (t.state ≠ TetherState.RESTING)) =
            tl.filter (fun t => decide (t.state ≠ TetherState.RESTING)) := by
          simp [List.filter_cons, hs]
        rw [List.foldl_cons, if_neg (not_not_intro hs), hfil, ih]
      · have hfil : (hd :: tl).filter
            (fun t => decide (t.state ≠ TetherState.RESTING)) =
            hd :: tl.filter (fun t => decide (t.state ≠ TetherState.RESTING)) := by
          simp [List.filter_cons, hs]
        rw [List.foldl_cons, if_pos hs, if_gt_eq_max acc hd.value, hfil,
          List.map_cons, List.foldl_cons, ih]
  constructor
  · exact key p.subscribable snd_pos
  · rw [aeron_network_publication_max_spy_position, key p.subscribable snd_pos]
    exact foldl_max_acc_le _ snd_pos

/-- Counterexample to claim C5 as stated: removing the RESTING entry of a
subscribable whose working position count is 1 clears has_spies even though
the working position count does not drop to zero (the remaining ACTIVE
position keeps it at 1). -/
theorem spec_c5_counterexample :
    pub_c5x.subscribable =
      [⟨5, TetherState.RESTING⟩, ⟨7, TetherState.ACTIVE⟩] ∧
    pub_c5x.has_spies = true ∧
    aeron_driver_subscribable_working_position_count pub_c5x.subscribable = 1 ∧
    (aeron_driver_subscribable_remove_position pub_c5x 0).has_spies = false ∧
    aeron_driver_subscribable_working_position_count
      (aeron_driver_subscribable_remove_position pub_c5x 0).subscribable = 1 := by
  decide

/-- Claim C5 (amended): removing a subscriber clears has_spies exactly when
the pre-removal working position count is 1; when the removed position is
itself working, that is exactly when the working count drops to zero as a
result of the removal, and removing a spy while other working positions remain
leaves has_spies unchanged. -/
theorem spec_c5_remove_subscriber :
    ∀ (p : aeron_network_publication_t) (i : Nat),
      ((aeron_driver_subscribable_remove_position p i).has_spies =
        if aeron_driver_subscribable_working_position_count p.subscribable = 1 then false
        else p.has_spies) ∧
      (∀ h : i < p.subscribable.length,
        (p.subscribable.get ⟨i, h⟩).state ≠ TetherState.RESTING →
          (aeron_driver_subscribable_working_position_count
              (aeron_driver_subscribable_remove_position p i).subscribable = 0 ↔
            aeron_driver_subscribable_working_position_count p.subscribable = 1)) := by
  intro p i
  constructor
  · unfold aeron_driver_subscribable_remove_position
      aeron_network_publication_remove_subscriber_hook
    split <;> simp_all
  · intro h hw
    have hsub : (aeron_driver_subscribable_remove_position p i).subscribable =
        p.subscribable.eraseIdx i := by
      unfold aeron_driver_subscribable_remove_position
        aeron_network_publication_remove_subscriber_hook
      split <;> rfl
    rw [hsub]
    unfold aeron_driver_subscribable_working_position_count
    have := countP_eraseIdx_add_one
      (fun t => decide (t.state ≠ TetherState.RESTING)) p.subscribable i h (by simpa using hw)
    omega

/-- Witness for C5 at a concrete publication with two working positions:
removing one of them does not drop the working count to zero and does not
equate with a pre-removal count of 1. -/
theorem spec_c5_witness :
    (aeron_driver_subscribable_working_position_count
        (aeron_driver_subscribable_remove_position pub_c5w 0).subscribable = 0 ↔
      aeron_driver_subscribable_working_position_count pub_c5w.subscribable = 1) :=
  (spec_c5_remove_subscriber pub_c5w 0).2 (by decide) (by decide)

/-- Claim C3 (the code diverges): writing frame type 1 at frame offset 0 into
an all-zero buffer and reading it back with the frame-type read accessor
returns 0, not 1 — the reader fetches the 16-bit value at the frame offset
itself (the frame-length field) while the writer stored the type at
typeOffset(frameOffset), where the value 1 is indeed found. -/
theorem spec_c3_frame_type_roundtrip_bug :
    FrameDescriptor.frameTypeGet
        (FrameDescriptor.frameTypePut FrameDescriptor.zeroBuffer 0 1) 0 = 0 ∧
    FrameDescriptor.frameTypeGet
        (FrameDescriptor.frameTypePut FrameDescriptor.zeroBuffer 0 1) 0 ≠ 1 ∧
    FrameDescriptor.getUInt16
        (FrameDescriptor.frameTypePut FrameDescriptor.zeroBuffer 0 1)
        (FrameDescriptor.typeOffset 0) = 1 := by
  refine ⟨rfl, by decide, rfl⟩

/-- Counterexample to claim C1 as stated: the full chain cleanPosition ≤
senderPosition ≤ senderLimitPosition ≤ producerPosition is not preserved by
status-message handling — a flow-control candidate limit ahead of the producer
position (a receiver window extending past what has been produced) raises
snd_lmt above producer_pos. -/
theorem spec_c1_counterexample :
    aeron_network_publication_position_chain pub_c1x ∧
    aeron_network_publication_step pub_c1x { pub_c1x with snd_lmt := 64 } ∧
    ¬ aeron_network_publication_position_chain { pub_c1x with snd_lmt := 64 } := by
  refine ⟨by decide, ?_, by decide⟩
  have h : ({ pub_c1x with snd_lmt := 64 } : aeron_network_publication_t) =
      { pub_c1x with snd_lmt := max pub_c1x.snd_lmt 64 } := by decide
  rw [h]
  exact aeron_network_publication_step.on_status_message pub_c1x 64

/-- Claim C1 (amended, to the invariant of spec §3): every engine operation —
send, NAK handling, status-message handling, time-event housekeeping, buffer
cleaning — and the independent producer advance preserves cleanPosition ≤
senderPosition ≤ senderLimitPosition together with senderPosition ≤
producerPosition. -/
theorem spec_c1_position_invariant_preserved :
    ∀ p q : aeron_network_publication_t,
      aeron_network_publication_position_invariant p →
      aeron_network_publication_step p q →
      aeron_network_publication_position_invariant q := by
  intro p q hinv hstep
  obtain ⟨h1, h2, h3⟩ := hinv
  unfold aeron_network_publication_producer_position at h3
  cases hstep with
  | send n h0 hn =>
    refine ⟨?_, ?_, ?_⟩ <;>
      simp only [aeron_network_publication_producer_position] <;> omega
  | on_nak =>
    exact ⟨h1, h2, h3⟩
  | on_status_message candidate =>
    refine ⟨h1, le_trans h2 (le_max_left _ _), h3⟩
  | clean_buffer =>
    refine ⟨?_, h2, h3⟩
    simp only [aeron_network_publication_clean_target]
    exact max_le h1 (min_le_left _ _)
  | on_time_event =>
    refine ⟨?_, h2, h3⟩
    simp only [aeron_network_publication_clean_target]
    exact max_le h1 (min_le_left _ _)
  | producer_advance n h0 =>
    refine ⟨h1, h2, ?_⟩
    simp only [aeron_network_publication_producer_position]
    omega

/-- Witness for C1: the invariant holds of a concrete idle publication and is
carried by a status-message step to the concrete successor state. -/
theorem spec_c1_witness :
    aeron_network_publication_position_invariant pub_c1x ∧
    aeron_network_publication_position_invariant
      ({ pub_c1x with snd_lmt := 64 } : aeron_network_publication_t) := by
  refine ⟨by decide, ?_⟩
  have h : ({ pub_c1x with snd_lmt := 64 } : aeron_network_publication_t) =
      { pub_c1x with snd_lmt := max pub_c1x.snd_lmt 64 } := by decide
  exact spec_c1_position_invariant_preserved pub_c1x _ (by decide)
    (h ▸ aeron_network_publication_step.on_status_message pub_c1x 64)

/-- Claim C7: each validating setter throws exactly on the claimed condition —
mtu outside 32..65504 or not a multiple of the 32-byte frame alignment,
termOffset above the maximum term length or not a multiple of the frame
alignment, linger negative — and on success returns the builder with exactly
that one parameter stored, so a rejected value leaves every stored parameter
unchanged and is never silently coerced. -/
theorem spec_c7_setter_validation :
    ∀ (b : ChannelUriStringBuilder) (m t : Nat) (l : Int),
      (ChannelUriStringBuilder.isErrorResult (ChannelUriStringBuilder.mtu b m) = true ↔
        (m < 32 ∨ 65504 < m ∨ m % 32 ≠ 0)) ∧
      (¬ (m < 32 ∨ 65504 < m ∨ m % 32 ≠ 0) →
        ChannelUriStringBuilder.mtu b m = .ok { b with m_mtu := some (m : Int) }) ∧
      (ChannelUriStringBuilder.isErrorResult (ChannelUriStringBuilder.termOffset b t) = true ↔
        (ChannelUriStringBuilder.TERM_MAX_LENGTH < t ∨ t % 32 ≠ 0)) ∧
      (¬ (ChannelUriStringBuilder.TERM_MAX_LENGTH < t ∨ t % 32 ≠ 0) →
        ChannelUriStringBuilder.termOffset b t =
          .ok { b with m_termOffset := some (t : Int) }) ∧
      (ChannelUriStringBuilder.isErrorResult (ChannelUriStringBuilder.linger b l) = true ↔
        l < 0) ∧
      (0 ≤ l → ChannelUriStringBuilder.linger b l = .ok { b with m_linger := some l }) := by
  intro b m t l
  have hand : ∀ x : Nat, x &&& (FrameDescriptor.FRAME_ALIGNMENT - 1) = x % 32 := by
    intro x
    have hx := Nat.and_pow_two_sub_one_eq_mod x 5
    norm_num at hx
    simpa [FrameDescriptor.FRAME_ALIGNMENT] using hx
  refine ⟨?_, ?_, ?_, ?_, ?_, ?_⟩
  · unfold ChannelUriStringBuilder.mtu
    split_ifs with h1 h2
    · simp only [ChannelUriStringBuilder.isErrorResult]
      tauto
    · rw [hand m] at h2
      simp only [ChannelUriStringBuilder.isErrorResult]
      tauto
    · rw [hand m] at h2
      simp only [ChannelUriStringBuilder.isErrorResult]
      constructor
      · intro hfalse
        exact absurd hfalse (by decide)
      · intro hcond
        exfalso
        omega
  · intro hok
    push_neg at hok
    unfold ChannelUriStringBuilder.mtu
    rw [if_neg (by omega), if_neg (by rw [hand m]; omega)]
  · unfold ChannelUriStringBuilder.termOffset
    split_ifs with h1 h2
    · simp only [ChannelUriStringBuilder.isErrorResult]
      tauto
    · rw [hand t] at h2
      simp only [ChannelUriStringBuilder.isErrorResult]
      tauto
    · rw [hand t] at h2
      simp only [ChannelUriStringBuilder.isErrorResult]
      constructor
      · intro hfalse
        exact absurd hfalse (by decide)
      · intro hcond
        exfalso
        omega
  · intro hok
    push_neg at hok
    unfold ChannelUriStringBuilder.termOffset
    rw [if_neg (by omega), if_neg (by rw [hand t]; omega)]
  · unfold ChannelUriStringBuilder.linger
    split_ifs with h1
    · simp only [ChannelUriStringBuilder.isErrorResult]
      tauto
    · simp only [ChannelUriStringBuilder.isErrorResult]
      constructor
      · intro hfalse
        exact absurd hfalse (by decide)
      · intro hcond
        exact absurd hcond h1
  · intro hok
    unfold ChannelUriStringBuilder.linger
    rw [if_neg (by omega)]

/-- Witness for C7 at concrete valid inputs: mtu 1408, termOffset 64 and
linger 0 are accepted and stored. -/
theorem spec_c7_witness :
    ChannelUriStringBuilder.mtu emptyChannelUriStringBuilder 1408 =
      .ok { emptyChannelUriStringBuilder with m_mtu := some ((1408 : Nat) : Int) } ∧
    ChannelUriStringBuilder.termOffset emptyChannelUriStringBuilder 64 =
      .ok { emptyChannelUriStringBuilder with m_termOffset := some ((64 : Nat) : Int) } ∧
    ChannelUriStringBuilder.linger emptyChannelUriStringBuilder 0 =
      .ok { emptyChannelUriStringBuilder with m_linger := some 0 } :=
  ⟨(spec_c7_setter_validation emptyChannelUriStringBuilder 1408 64 0).2.1 (by decide),
    (spec_c7_setter_validation emptyChannelUriStringBuilder 1408 64 0).2.2.2.1 (by decide),
    (spec_c7_setter_validation emptyChannelUriStringBuilder 1408 64 0).2.2.2.2.2 (by decide)⟩

/-- numberOfTrailingZeroes of a power of two is its exponent. -/
theorem numberOfTrailingZeroes_two_pow :
    ∀ k : Nat, ChannelUriStringBuilder.numberOfTrailingZeroes (2 ^ k) = k := by
  intro k
  induction k with
  | zero =>
    rw [ChannelUriStringBuilder.numberOfTrailingZeroes]
    norm_num
  | succ j ih =>
    rw [ChannelUriStringBuilder.numberOfTrailingZeroes]
    have hcond : ¬ (2 ^ (j + 1) % 2 = 1 ∨ 2 ^ (j + 1) = 0) := by
      refine not_or.mpr ⟨?_, ?_⟩
      · have : 2 ^ (j + 1) % 2 = 0 := by
          rw [pow_succ]
          exact Nat.mul_mod_left _ _
        omega
      · have : 0 < 2 ^ (j + 1) := Nat.pos_pow_of_pos _ (by norm_num)
        omega
    rw [dif_neg hcond]
    have hdiv : 2 ^ (j + 1) / 2 = 2 ^ j := by
      rw [pow_succ]
      exact Nat.mul_div_cancel _ (by norm_num)
    rw [hdiv, ih]

/-- Claim C10: for a non-negative position that is a multiple of the 32-byte
frame alignment, any power-of-two term length accepted by the term-length
check (2^k with 16 ≤ k ≤ 30) and any initial term id, initialPosition stores
termId and termOffset forming the unique decomposition
(termId - initialTermId) * termLength + termOffset = position with
0 ≤ termOffset < termLength. -/
theorem spec_c10_initial_position_decomposition :
    ∀ (b : ChannelUriStringBuilder) (position initialTermId : Int) (k : Nat),
      0 ≤ position → position % 32 = 0 → 16 ≤ k → k ≤ 30 →
      ∃ termIdV termOffsetV : Int,
        ChannelUriStringBuilder.initialPosition b position initialTermId ((2 : Int) ^ k) =
          .ok { b with
                m_termLength := some ((2 : Int) ^ k),
                m_initialTermId := some initialTermId,
                m_termId := some termIdV,
                m_termOffset := some termOffsetV } ∧
        (termIdV - initialTermId) * (2 : Int) ^ k + termOffsetV = position ∧
        0 ≤ termOffsetV ∧ termOffsetV < (2 : Int) ^ k ∧
        (∀ ti o : Int, (ti - initialTermId) * (2 : Int) ^ k + o = position →
          0 ≤ o → o < (2 : Int) ^ k → ti = termIdV ∧ o = termOffsetV) := by
  intro b position init k h0 h32 hk1 hk2
  obtain ⟨n, rfl⟩ := Int.eq_ofNat_of_zero_le h0
  have hn32 : n % 32 = 0 := by exact_mod_cast h32
  have hcast : ((2 : Int) ^ k) = ((2 ^ k : Nat) : Int) := by push_cast; ring
  have htoNat : ((2 : Int) ^ k).toNat = 2 ^ k := by rw [hcast, Int.toNat_ofNat]
  have hand31 : n &&& 31 = n % 32 := by
    have hx := Nat.and_pow_two_sub_one_eq_mod n 5
    norm_num at hx
    exact hx
  have hc1 : ¬ (((n : Nat) : Int) < 0 ∨
      ((n : Nat) : Int).toNat &&& (FrameDescriptor.FRAME_ALIGNMENT - 1) ≠ 0) := by
    refine not_or.mpr ⟨by omega, ?_⟩
    rw [Int.toNat_ofNat]
    simp [FrameDescriptor.FRAME_ALIGNMENT, hand31, hn32]
  have hchk : ChannelUriStringBuilder.checkTermLength ((2 : Int) ^ k) = true := by
    unfold ChannelUriStringBuilder.checkTermLength
    rw [htoNat]
    have hlo : (ChannelUriStringBuilder.TERM_MIN_LENGTH : Int) ≤ (2 : Int) ^ k := by
      have hnat : (65536 : Nat) ≤ 2 ^ k := by
        calc (65536 : Nat) = 2 ^ 16 := by norm_num
        _ ≤ 2 ^ k := Nat.pow_le_pow_right (by norm_num) hk1
      rw [hcast]
      simp only [ChannelUriStringBuilder.TERM_MIN_LENGTH]
      exact_mod_cast hnat
    have hhi : (2 : Int) ^ k ≤ (ChannelUriStringBuilder.TERM_MAX_LENGTH : Int) := by
      have hnat : 2 ^ k ≤ (1073741824 : Nat) := by
        calc (2 : Nat) ^ k ≤ 2 ^ 30 := Nat.pow_le_pow_right (by norm_num) hk2
        _ = 1073741824 := by norm_num
      rw [hcast]
      simp only [ChannelUriStringBuilder.TERM_MAX_LENGTH]
      exact_mod_cast hnat
    have hpow : 2 ^ k &&& (2 ^ k - 1) = 0 := by
      rw [Nat.and_pow_two_sub_one_eq_mod, Nat.mod_self]
    simp [hlo, hhi, hpow]
  have hbits : ChannelUriStringBuilder.numberOfTrailingZeroes ((2 : Int) ^ k).toNat = k := by
    rw [htoNat, numberOfTrailingZeroes_two_pow]
  have hshift : ((n : Nat) : Int).toNat >>> k = n / 2 ^ k := by
    rw [Int.toNat_ofNat, Nat.shiftRight_eq_div_pow]
  have hmask : ((n : Nat) : Int).toNat &&& (((2 : Int) ^ k).toNat - 1) = n % 2 ^ k := by
    rw [Int.toNat_ofNat, htoNat, Nat.and_pow_two_sub_one_eq_mod]
  refine ⟨((n / 2 ^ k : Nat) : Int) + init, ((n % 2 ^ k : Nat) : Int), ?_, ?_, ?_, ?_, ?_⟩
  · unfold ChannelUriStringBuilder.initialPosition
    rw [if_neg hc1, if_neg (not_not_intro hchk)]
    rw [hbits]
    dsimp only
    rw [hshift, hmask]
  · have key : ((n / 2 ^ k : Nat) : Int) * (2 : Int) ^ k + ((n % 2 ^ k : Nat) : Int) =
        ((n : Nat) : Int) := by
      rw [hcast]
      exact_mod_cast Nat.div_add_mod' n (2 ^ k)
    have harg : ((n / 2 ^ k : Nat) : Int) + init - init = ((n / 2 ^ k : Nat) : Int) := by ring
    rw [harg, key]
  · exact Int.natCast_nonneg _
  · rw [hcast]
    exact_mod_cast Nat.mod_lt n (Nat.pos_pow_of_pos k (by norm_num))
  · intro ti o he ho1 ho2
    have hL : (0 : Int) < (2 : Int) ^ k := by positivity
    have he2 : o + (2 : Int) ^ k * (ti - init) = ((n : Nat) : Int) := by
      linear_combination he
    obtain ⟨hq, hr⟩ := (Int.ediv_emod_unique hL).mpr ⟨he2, ho1, ho2⟩
    have hdiv_cast : ((n : Nat) : Int) / (2 : Int) ^ k = ((n / 2 ^ k : Nat) : Int) := by
      rw [hcast]
      exact (Int.natCast_div n (2 ^ k)).symm
    have hmod_cast : ((n : Nat) : Int) % (2 : Int) ^ k = ((n % 2 ^ k : Nat) : Int) := by
      rw [hcast]
      exact (Int.natCast_mod n (2 ^ k)).symm
    constructor
    · have : ti - init = ((n / 2 ^ k : Nat) : Int) := by rw [← hq, hdiv_cast]
      linarith
    · rw [← hr, hmod_cast]

/-- Witness for C10 at concrete inputs: position 65600 with initial term id 5
and term length 2^16 decomposes as termId 6, termOffset 64. -/
theorem spec_c10_witness :
    ∃ termIdV termOffsetV : Int,
      ChannelUriStringBuilder.initialPosition emptyChannelUriStringBuilder 65600 5
          ((2 : Int) ^ 16) =
        .ok { emptyChannelUriStringBuilder with
              m_termLength := some ((2 : Int) ^ 16),
              m_initialTermId := some 5,
              m_termId := some termIdV,
              m_termOffset := some termOffsetV } ∧
      (termIdV - 5) * (2 : Int) ^ 16 + termOffsetV = 65600 ∧
      0 ≤ termOffsetV ∧ termOffsetV < (2 : Int) ^ 16 ∧
      (∀ ti o : Int, (ti - 5) * (2 : Int) ^ 16 + o = 65600 →
        0 ≤ o → o < (2 : Int) ^ 16 → ti = termIdV ∧ o = termOffsetV) :=
  spec_c10_initial_position_decomposition emptyChannelUriStringBuilder 65600 5 16
    (by decide) (by decide) (by decide) (by decide)

/-- Appending onto the left of a non-empty good-ending string keeps the good
ending. -/
theorem lastCharOk_append_right (a : Str) {s : Str} (hn : s ≠ []) (h : lastCharOk s) :
    lastCharOk (a ++ s) := by
  unfold lastCharOk at h ⊢
  rw [List.getLast?_append_of_ne_nil a hn]
  exact h

/-- Good blocks are closed under concatenation. -/
theorem goodBlock_append {a b : Str} (ha : goodBlock a) (hb : goodBlock b) :
    goodBlock (a ++ b) := by
  obtain hb | ⟨core, hcore, hne, hcok⟩ := hb
  · rw [hb, List.append_nil]
    exact ha
  · right
    refine ⟨a ++ core, ?_, ?_, ?_⟩
    · rw [hcore, List.append_assoc]
    · intro hnil
      exact hne (List.append_eq_nil.mp hnil).2
    · exact lastCharOk_append_right a hne hcok

/-- Decimal digit characters are not the separator or query character. -/
theorem digitChar_lastOk : ∀ d : Nat, d < 10 →
    Nat.digitChar d ≠ '|' ∧ Nat.digitChar d ≠ '?' := by
  decide

/-- natChars always produces at least one character. -/
theorem natChars_ne_nil (n : Nat) : natChars n ≠ [] := by
  rw [natChars]
  split
  · simp
  · simp

/-- natChars ends with a decimal digit, hence not with a separator or query
character. -/
theorem natChars_lastCharOk (n : Nat) : lastCharOk (natChars n) := by
  rw [natChars]
  split
  · rename_i h
    have hd := digitChar_lastOk n h
    unfold lastCharOk
    constructor
    · simpa using hd.1
    · simpa using hd.2
  · have hd := digitChar_lastOk (n % 10) (Nat.mod_lt n (by omega))
    unfold lastCharOk
    rw [List.getLast?_concat]
    constructor
    · simpa using hd.1
    · simpa using hd.2

/-- intChars always produces at least one character. -/
theorem intChars_ne_nil (i : Int) : intChars i ≠ [] := by
  unfold intChars
  split
  · simp
  · exact natChars_ne_nil _

/-- intChars ends with a decimal digit. -/
theorem intChars_lastCharOk (i : Int) : lastCharOk (intChars i) := by
  unfold intChars
  split
  · have h : ('-' :: natChars (-i).toNat) = ['-'] ++ natChars (-i).toNat := rfl
    rw [h]
    exact lastCharOk_append_right _ (natChars_ne_nil _) (natChars_lastCharOk _)
  · exact natChars_lastCharOk _

/-- boolChars ends with the letter e. -/
theorem boolChars_lastCharOk (v : Int) : lastCharOk (boolChars v) := by
  unfold boolChars
  split
  · decide
  · decide

/-- prefixTag always produces at least one character. -/
theorem prefixTag_ne_nil (tg : Bool) (v : Int) :
    ChannelUriStringBuilder.prefixTag tg v ≠ [] := by
  unfold ChannelUriStringBuilder.prefixTag
  split
  · intro hnil
    exact intChars_ne_nil v (List.append_eq_nil.mp hnil).2
  · exact intChars_ne_nil v

/-- prefixTag ends with a decimal digit. -/
theorem prefixTag_lastCharOk (tg : Bool) (v : Int) :
    lastCharOk (ChannelUriStringBuilder.prefixTag tg v) := by
  unfold ChannelUriStringBuilder.prefixTag
  split
  · exact lastCharOk_append_right _ (intChars_ne_nil v) (intChars_lastCharOk v)
  · exact intChars_lastCharOk v

/-- A numeric parameter emission is a good block. -/
theorem goodBlock_appendValue (name : Str) (v : Option Int) :
    goodBlock (ChannelUriStringBuilder.appendValue name v) := by
  cases v with
  | none => exact Or.inl rfl
  | some x =>
    right
    refine ⟨name ++ '=' :: intChars x, ?_, by simp, ?_⟩
    · show name ++ '=' :: intChars x ++ ['|'] = (name ++ '=' :: intChars x) ++ ['|']
      simp
    · have h : name ++ '=' :: intChars x = (name ++ ['=']) ++ intChars x := by simp
      rw [h]
      exact lastCharOk_append_right _ (intChars_ne_nil x) (intChars_lastCharOk x)

/-- A boolean parameter emission is a good block. -/
theorem goodBlock_appendBoolValue (name : Str) (v : Option Int) :
    goodBlock (ChannelUriStringBuilder.appendBoolValue name v) := by
  cases v with
  | none => exact Or.inl rfl
  | some x =>
    right
    refine ⟨name ++ '=' :: boolChars x, ?_, by simp, ?_⟩
    · show name ++ '=' :: boolChars x ++ ['|'] = (name ++ '=' :: boolChars x) ++ ['|']
      simp
    · have h : name ++ '=' :: boolChars x = (name ++ ['=']) ++ boolChars x := by simp
      rw [h]
      have hb : boolChars x ≠ [] := by
        unfold boolChars
        split <;> simp
      exact lastCharOk_append_right _ hb (boolChars_lastCharOk x)

/-- The session-id emission is a good block. -/
theorem goodBlock_appendSessionId (tg : Bool) (v : Option Int) :
    goodBlock (ChannelUriStringBuilder.appendSessionId tg v) := by
  cases v with
  | none => exact Or.inl rfl
  | some x =>
    right
    refine ⟨SESSION_ID_PARAM_NAME ++ '=' :: ChannelUriStringBuilder.prefixTag tg x,
      ?_, by simp, ?_⟩
    · show SESSION_ID_PARAM_NAME ++ '=' :: ChannelUriStringBuilder.prefixTag tg x ++ ['|'] =
        (SESSION_ID_PARAM_NAME ++ '=' :: ChannelUriStringBuilder.prefixTag tg x) ++ ['|']
      simp
    · have h : SESSION_ID_PARAM_NAME ++ '=' :: ChannelUriStringBuilder.prefixTag tg x =
          (SESSION_ID_PARAM_NAME ++ ['=']) ++ ChannelUriStringBuilder.prefixTag tg x := by simp
      rw [h]
      exact lastCharOk_append_right _ (prefixTag_ne_nil tg x) (prefixTag_lastCharOk tg x)

/-- A string parameter emission is a good block when the stored value does not
end with a separator or query character. -/
theorem goodBlock_appendString (name : Str) (v : Option Str) (hv : optStrOk v) :
    goodBlock (ChannelUriStringBuilder.appendString name v) := by
  cases v with
  | none => exact Or.inl rfl
  | some s =>
    right
    refine ⟨name ++ '=' :: s, ?_, by simp, ?_⟩
    · show name ++ '=' :: s ++ ['|'] = (name ++ '=' :: s) ++ ['|']
      simp
    · by_cases hnil : s = []
      · subst hnil
        have h : name ++ '=' :: ([] : Str) = name ++ ['='] := by simp
        rw [h]
        unfold lastCharOk
        rw [List.getLast?_concat]
        exact ⟨by decide, by decide⟩
      · have h : name ++ '=' :: s = (name ++ ['=']) ++ s := by simp
        rw [h]
        exact lastCharOk_append_right _ hnil (hv s rfl)

/-- The whole parameter section of build() is a good block whenever every set
string-valued parameter avoids a trailing separator or query character. -/
theorem goodBlock_buildParams (b : ChannelUriStringBuilder)
    (h1 : optStrOk b.m_tags) (h2 : optStrOk b.m_endpoint)
    (h3 : optStrOk b.m_networkInterface) (h4 : optStrOk b.m_controlEndpoint)
    (h5 : optStrOk b.m_controlMode) (h6 : optStrOk b.m_alias)
    (h7 : optStrOk b.m_cc) (h8 : optStrOk b.m_fc)
    (h9 : optStrOk b.m_mediaReceiveTimestampOffset)
    (h10 : optStrOk b.m_channelReceiveTimestampOffset)
    (h11 : optStrOk b.m_channelSendTimestampOffset) :
    goodBlock (ChannelUriStringBuilder.buildParams b) := by
  unfold ChannelUriStringBuilder.buildParams
  repeat
    apply goodBlock_append
  all_goals
    first
      | exact goodBlock_appendValue _ _
      | exact goodBlock_appendBoolValue _ _
      | exact goodBlock_appendSessionId _ _
      | exact goodBlock_appendString _ _ h1
      | exact goodBlock_appendString _ _ h2
      | exact goodBlock_appendString _ _ h3
      | exact goodBlock_appendString _ _ h4
      | exact goodBlock_appendString _ _ h5
      | exact goodBlock_appendString _ _ h6
      | exact goodBlock_appendString _ _ h7
      | exact goodBlock_appendString _ _ h8
      | exact goodBlock_appendString _ _ h9
      | exact goodBlock_appendString _ _ h10
      | exact goodBlock_appendString _ _ h11

/-- Shape of the trimmed build string: the head before the query character is
kept as a prefix and the result never ends with a separator or query
character, given a good parameter section and a good-ending head. -/
theorem buildTrim_shape (A P : Str) (hA : lastCharOk A) (hP : goodBlock P) :
    List.IsPrefix A (ChannelUriStringBuilder.buildTrim (A ++ ['?'] ++ P)) ∧
    lastCharOk (ChannelUriStringBuilder.buildTrim (A ++ ['?'] ++ P)) := by
  obtain hP | ⟨core, hcore, hne, hcok⟩ := hP
  · subst hP
    have hsimp : A ++ ['?'] ++ ([] : Str) = A ++ ['?'] := by simp
    rw [hsimp]
    unfold ChannelUriStringBuilder.buildTrim
    have hlast : (A ++ ['?']).getLast? = some '?' := List.getLast?_concat A
    rw [if_pos (Or.inr hlast), List.dropLast_concat]
    exact ⟨List.prefix_rfl, hA⟩
  · subst hcore
    have hassoc : A ++ ['?'] ++ (core ++ ['|']) = (A ++ ['?'] ++ core) ++ ['|'] := by simp
    rw [hassoc]
    unfold ChannelUriStringBuilder.buildTrim
    have hlast : ((A ++ ['?'] ++ core) ++ ['|']).getLast? = some '|' :=
      List.getLast?_concat _
    rw [if_pos (Or.inl hlast), List.dropLast_concat]
    constructor
    · exact ⟨'?' :: core, by simp⟩
    · unfold lastCharOk
      rw [List.getLast?_append_of_ne_nil _ hne]
      exact hcok

/-- Counterexample to claim C9 as stated: a builder with media "udp" and alias
set to the single character '|' builds to "aeron:udp?alias=|", which ends with
the separator character '|'. -/
theorem spec_c9_counterexample :
    ChannelUriStringBuilder.build bld_c9x = some ("aeron:udp?alias=|".data) ∧
    ("aeron:udp?alias=|".data).getLast? = some '|' := by
  constructor
  · decide
  · decide

/-- Claim C9 (amended): for a builder with media set whose set string-valued
parameter values (media included) do not themselves end with '|' or '?', build
returns a string beginning with the prefix followed by ':' when a non-empty
prefix is set, then "aeron:<media>", and the result never ends with the
separator character '|' or the query character '?', even when no optional
parameter is set. -/
theorem spec_c9_build_shape :
    ∀ (b : ChannelUriStringBuilder) (m : Str),
      b.m_media = some m → lastCharOk m →
      optStrOk b.m_tags → optStrOk b.m_endpoint → optStrOk b.m_networkInterface →
      optStrOk b.m_controlEndpoint → optStrOk b.m_controlMode → optStrOk b.m_alias →
      optStrOk b.m_cc → optStrOk b.m_fc → optStrOk b.m_mediaReceiveTimestampOffset →
      optStrOk b.m_channelReceiveTimestampOffset →
      optStrOk b.m_channelSendTimestampOffset →
      ∃ r, ChannelUriStringBuilder.build b = some r ∧
        List.IsPrefix (ChannelUriStringBuilder.prefixPart b ++ AERON_SCHEME ++ ':' :: m) r ∧
        r.getLast? ≠ some '|' ∧ r.getLast? ≠ some '?' := by
  intro b m hm hmok h1 h2 h3 h4 h5 h6 h7 h8 h9 h10 h11
  have hA : lastCharOk (ChannelUriStringBuilder.prefixPart b ++ AERON_SCHEME ++ ':' :: m) := by
    by_cases hnil : m = []
    · subst hnil
      unfold lastCharOk
      rw [List.getLast?_concat]
      exact ⟨by decide, by decide⟩
    · unfold lastCharOk
      rw [List.getLast?_append_cons,
        show (':' :: m : Str) = [':'] ++ m from rfl,
        List.getLast?_append_of_ne_nil _ hnil]
      exact hmok
  have hgood := goodBlock_buildParams b h1 h2 h3 h4 h5 h6 h7 h8 h9 h10 h11
  have hshape := buildTrim_shape
    (ChannelUriStringBuilder.prefixPart b ++ AERON_SCHEME ++ ':' :: m)
    (ChannelUriStringBuilder.buildParams b) hA hgood
  refine ⟨ChannelUriStringBuilder.buildTrim (ChannelUriStringBuilder.buildRaw b m),
    ?_, hshape.1, hshape.2.1, hshape.2.2⟩
  unfold ChannelUriStringBuilder.build
  rw [hm]

/-- Witness for C9 at the concrete builder holding only media "udp". -/
theorem spec_c9_witness :
    ∃ r, ChannelUriStringBuilder.build bld_c9w = some r ∧
      List.IsPrefix
        (ChannelUriStringBuilder.prefixPart bld_c9w ++ AERON_SCHEME ++ ':' :: "udp".data) r ∧
      r.getLast? ≠ some '|' ∧ r.getLast? ≠ some '?' :=
  spec_c9_build_shape bld_c9w ("udp".data) rfl (by decide)
    (fun s h => nomatch h) (fun s h => nomatch h) (fun s h => nomatch h)
    (fun s h => nomatch h) (fun s h => nomatch h) (fun s h => nomatch h)
    (fun s h => nomatch h) (fun s h => nomatch h) (fun s h => nomatch h)
    (fun s h => nomatch h) (fun s h => nomatch h)
